import Mathlib

/-!
Verification development for the Beatify desktop client (src/Beatify.py).

The program is a single-file tkinter GUI that queries the iTunes search API,
shows the results in a listbox, lazily fetches and caches cover artwork, and
opens preview/storefront/search URLs in an external browser.

Shallow embedding conventions:
* A Python song record (a flat JSON dict) is a structure of `Option String`
  fields; a missing key is `none`. `dict.get(k, d)` is `Option.getD`, and
  Python truthiness of an optional string (`None` and `""` are falsy) is
  `pyTruthy`; `a or b` on optional strings is `pyOr`.
* The mutable widget/instance state of `MoodITunesApp` is the structure
  `AppState`; each UI callback becomes a function from `AppState` to
  `AppState`, paired with the lists of browser tabs opened, modal dialogs
  shown and artwork HTTP requests issued by that callback.
* Network I/O is an oracle: `ArtNet` gives, per URL, the optional response
  content of the artwork HTTP GET (`none` means `requests.get` or
  `raise_for_status` raised) and, per content, the optionally decoded image
  (`none` means `Image.open`/decode raised).  Images are abstract tokens
  (`Nat`).
* Background threads are sequentialized: a fire-and-forget thread together
  with the callback it marshals onto the UI loop via `self.after` runs to
  completion at its spawn point.  The thread-placement facts themselves
  (which statement runs on which thread) are embedded separately as the
  `...writes` lists tagged with `ThreadCtx`, read off the source:
  `threading.Thread(target=...)` bodies run on a background thread, and
  `self.after(0, f)` callbacks run on the UI thread.
-/

/-- Python truthiness of an optional string: `None` and `""` are falsy. -/
def pyTruthy (o : Option String) : Bool :=
  match o with
  | none => false
  | some s => s ≠ ""

/-- Python `a or b` for optional strings (returns `b` when `a` is falsy). -/
def pyOr (a b : Option String) : Option String :=
  if pyTruthy a then a else b

/-- One flat song record from the iTunes JSON response; only the keys the
program reads are modelled, each as an optional string. -/
structure SongRecord where
  trackName : Option String := none
  artistName : Option String := none
  collectionName : Option String := none
  previewUrl : Option String := none
  artworkUrl100 : Option String := none
  artworkUrl60 : Option String := none
  trackViewUrl : Option String := none
  collectionViewUrl : Option String := none
deriving Repr, DecidableEq

/-- A modal messagebox call: `showinfo` or `showerror`, with title and text. -/
inductive Dialog where
  | info (title msg : String)
  | error (title msg : String)
deriving Repr, DecidableEq

/-- Content of the artwork label: cleared, an image, or placeholder text. -/
inductive ArtworkDisplay where
  | empty
  | image (photo : Nat)
  | text (t : String)
deriving Repr, DecidableEq

/-- The mutable state of `MoodITunesApp` that the callbacks read and write:
`current_results`, `artwork_cache` (an association list standing for the
url-to-PhotoImage dict), the listbox lines, the listbox selection
(`curselection`), the status bar text, the Search button state, the artwork
label and the two detail labels. -/
structure AppState where
  current_results : List SongRecord
  artwork_cache : List (String × Nat)
  song_listbox : List String
  selection : Option Nat
  status_var : String
  btn_get_enabled : Bool
  artwork_label : ArtworkDisplay
  track_var : String
  artist_var : String
deriving Repr, DecidableEq

/-- Python dict membership / indexing for the artwork cache. -/
def cacheLookup : List (String × Nat) → String → Option Nat
  | [], _ => none
  | (k, v) :: rest, u => if k = u then some v else cacheLookup rest u

/-- State right after `__init__` and `create_widgets`. -/
def initialState : AppState :=
  { current_results := []
    artwork_cache := []
    song_listbox := []
    selection := none
    status_var := "Select a mood, choose a region, or enter a custom keyword, then click Search iTunes."
    btn_get_enabled := true
    artwork_label := ArtworkDisplay.empty
    track_var := ""
    artist_var := "" }

/-- Region row of `REGION_MAP`: iTunes country code and keyword suffix. -/
structure RegionInfo where
  country : String
  append : String
deriving Repr, DecidableEq

/-- The `REGION_MAP` table from the source, in order. -/
def REGION_MAP : List (String × RegionInfo) :=
  [("Any", ⟨"US", ""⟩),
   ("Bollywood", ⟨"IN", "Bollywood"⟩),
   ("Hollywood", ⟨"US", "Hollywood"⟩),
   ("Punjabi", ⟨"IN", "Punjabi"⟩),
   ("Haryanvi", ⟨"IN", "Haryanvi"⟩),
   ("Hindi", ⟨"IN", "Hindi"⟩),
   ("International", ⟨"US", ""⟩),
   ("Latin", ⟨"US", "Latin"⟩),
   ("K-Pop", ⟨"KR", "K-Pop"⟩),
   ("Regional (India)", ⟨"IN", ""⟩)]

/-- Lookup in an association list of regions by exact key. -/
def regionFind : List (String × RegionInfo) → String → Option RegionInfo
  | [], _ => none
  | (k, v) :: rest, u => if k = u then some v else regionFind rest u

/-- `REGION_MAP.get(region_sel, default)` with the default dict from line 138. -/
def regionLookup (k : String) : RegionInfo :=
  match regionFind REGION_MAP k with
  | some v => v
  | none => ⟨"US", ""⟩

/-- Uppercase hexadecimal digit, as CPython urllib percent-encoding emits. -/
def hexDigit (n : Nat) : Char :=
  if n < 10 then Char.ofNat (48 + n) else Char.ofNat (55 + n)

/-- Bytes `urllib.parse.quote` never escapes: ASCII letters, digits, and
`_ . - ~`. -/
def isQuoteSafe (b : UInt8) : Bool :=
  (65 ≤ b && b ≤ 90) || (97 ≤ b && b ≤ 122) || (48 ≤ b && b ≤ 57) ||
  b == 95 || b == 46 || b == 45 || b == 126

/-- `quote_plus` encoding of one UTF-8 byte: safe bytes pass through, a
space becomes `+`, everything else becomes `%XX` with uppercase hex. -/
def quotePlusByte (b : UInt8) : String :=
  if isQuoteSafe b then String.singleton (Char.ofNat b.toNat)
  else if b == 32 then "+"
  else "%" ++ String.singleton (hexDigit (b.toNat / 16)) ++ String.singleton (hexDigit (b.toNat % 16))

/-- `urllib.parse.quote_plus` on the UTF-8 encoding of the string. -/
def quotePlus (s : String) : String :=
  (s.toUTF8.toList.map quotePlusByte).foldl (fun a b => a ++ b) ""

/-- `itunes_search_url` from lines 41-43 of the source. -/
def itunes_search_url (term : String) (limit : Nat) (country : String) : String :=
  "https://itunes.apple.com/search?term=" ++ quotePlus term ++
    "&entity=song&limit=" ++ toString limit ++ "&country=" ++ country

/-- The URL `fetch_itunes` requests (line 159): limit is fixed at 50. -/
def fetch_itunes_request_url (term country : String) : String :=
  itunes_search_url term 50 country

/-- The listbox line built for one record in `update_results` (lines
184-191): `trackName` defaults to "Unknown", the separator is the literal
(mojibake) three-character sequence from the source, and a truthy
`collectionName` is appended in parentheses after two spaces. -/
def displayLine (r : SongRecord) : String :=
  let name := r.trackName.getD "Unknown"
  let artist := r.artistName.getD ""
  let collection := r.collectionName.getD ""
  let line := name ++ " â€” " ++ artist
  if collection ≠ "" then line ++ "  (" ++ collection ++ ")" else line

/-- `update_results` (lines 175-192), run on the UI thread after a
successful fetch: re-enables the Search button, replaces `current_results`,
clears the listbox (and hence the selection), clears the artwork label,
clears the artwork cache, then either sets the no-results status or fills
the listbox and sets the result-count status. -/
def update_results (s : AppState) (results : List SongRecord) (term country : String) : AppState :=
  let s1 : AppState :=
    { s with btn_get_enabled := true
             current_results := results
             song_listbox := []
             selection := none
             artwork_label := ArtworkDisplay.empty
             artwork_cache := [] }
  if results.isEmpty then
    { s1 with status_var := "No results from iTunes for \"" ++ term ++ "\" (country=" ++ country ++ ")." }
  else
    { s1 with song_listbox := results.map displayLine
              status_var := "Showing " ++ toString results.length ++ " results for \"" ++ term ++
                "\" (country=" ++ country ++ "). Select a song to see details." }

/-- `fetch_failed` (lines 170-173), run on the UI thread when the search
fetch raised: re-enables the button, sets the status, and shows exactly one
modal error dialog. -/
def fetch_failed (s : AppState) (exMsg : String) : AppState × List Dialog :=
  ({ s with btn_get_enabled := true, status_var := "Search failed." },
   [Dialog.error "Search failed" ("Could not fetch results from iTunes: " ++ exMsg)])

/-- Outcome of the input-handling prefix of `on_get_songs`. -/
inductive SearchDecision where
  | noInput
  | search (term country : String)
deriving Repr, DecidableEq

/-- Python `str.strip()`: drop whitespace from both ends (ASCII whitespace
in this model; the inputs the program strips are ASCII). -/
def pyStrip (s : String) : String :=
  String.mk (((s.data.dropWhile Char.isWhitespace).reverse.dropWhile Char.isWhitespace).reverse)

/-- Python `str.lower()` (ASCII case mapping in this model; the mood names
are ASCII). -/
def pyLower (s : String) : String :=
  String.mk (s.data.map Char.toLower)

/-- The `region_sel` value of line 137: the stripped combobox text, or
"Any" when that is empty (Python `or`). -/
def regionSelOf (region_raw : String) : String :=
  if pyStrip region_raw = "" then "Any" else pyStrip region_raw

/-- Term and country computation of `on_get_songs` (lines 133-150), from
the raw custom-entry text, mood-combobox text and region-combobox text. -/
def computeSearch (custom_raw mood_raw region_raw : String) : SearchDecision :=
  let custom := pyStrip custom_raw
  let mood_sel := pyLower (pyStrip mood_raw)
  let info := regionLookup (regionSelOf region_raw)
  if custom ≠ "" then
    SearchDecision.search (pyStrip (custom ++ " " ++ info.append)) info.country
  else if mood_sel ≠ "" then
    SearchDecision.search (pyStrip (mood_sel ++ " song " ++ info.append)) info.country
  else
    SearchDecision.noInput

/-- `on_get_songs` (lines 133-155): on no input, show one info dialog and
start no search; otherwise set the searching status, disable the button,
and start the background fetch with the computed term and country (the
started search is the third component). -/
def on_get_songs (s : AppState) (custom_raw mood_raw region_raw : String) :
    AppState × List Dialog × Option (String × String) :=
  match computeSearch custom_raw mood_raw region_raw with
  | SearchDecision.noInput =>
      (s, [Dialog.info "No input" "Please select a mood or enter a custom search term."], none)
  | SearchDecision.search term country =>
      let st := "Searching iTunes for: " ++ term ++ " (region: " ++ regionSelOf region_raw ++ ") ..."
      ({ s with status_var := st, btn_get_enabled := false }, [], some (term, country))

/-- A search whose background fetch raises `exMsg`: `on_get_songs` starts
the fetch and `fetch_failed` is marshaled back; `none` when no search
started. Returns the final state and the dialogs shown. -/
def failingSearch (s : AppState) (custom_raw mood_raw region_raw exMsg : String) :
    Option (AppState × List Dialog) :=
  match on_get_songs s custom_raw mood_raw region_raw with
  | (_, _, none) => none
  | (s1, _, some _) => some (fetch_failed s1 exMsg)

/-- `get_selected_item` (lines 248-257): `None` plus one info dialog when
nothing is selected or the index is out of range, otherwise the record. -/
def get_selected_item (s : AppState) : Option SongRecord × List Dialog :=
  match s.selection with
  | none => (none, [Dialog.info "No selection" "Please select a song from the list."])
  | some idx =>
      if s.current_results.length ≤ idx then
        (none, [Dialog.info "No selection" "Please select a valid song from the list."])
      else
        (s.current_results[idx]?, [])

/-- `play_preview` (lines 259-268): returns the new state, the browser tabs
opened, and the dialogs shown. -/
def play_preview (s : AppState) : AppState × List String × List Dialog :=
  match get_selected_item s with
  | (none, ds) => (s, [], ds)
  | (some item, ds) =>
      if pyTruthy item.previewUrl then
        ({ s with status_var := "Playing preview for \"" ++ item.trackName.getD "" ++ "\"" },
         [item.previewUrl.getD ""], ds)
      else
        (s, [], ds ++ [Dialog.info "No preview available" "No preview audio is available for this track."])

/-- `open_itunes` (lines 270-279). -/
def open_itunes (s : AppState) : AppState × List String × List Dialog :=
  match get_selected_item s with
  | (none, ds) => (s, [], ds)
  | (some item, ds) =>
      let url := pyOr item.trackViewUrl item.collectionViewUrl
      if pyTruthy url then
        ({ s with status_var := "Opened iTunes page for \"" ++ item.trackName.getD "" ++ "\"" },
         [url.getD ""], ds)
      else
        (s, [], ds ++ [Dialog.info "No link" "No iTunes/Apple Music link available for this track."])

/-- `open_youtube_spotify` (lines 281-292): opens the two constructed
search URLs. -/
def open_youtube_spotify (s : AppState) : AppState × List String × List Dialog :=
  match get_selected_item s with
  | (none, ds) => (s, [], ds)
  | (some item, ds) =>
      let title := item.trackName.getD ""
      let artist := item.artistName.getD ""
      let query := quotePlus (title ++ " " ++ artist)
      ({ s with status_var := "Opened YouTube and Spotify searches for \"" ++ title ++ "\"" },
       ["https://www.youtube.com/results?search_query=" ++ query,
        "https://open.spotify.com/search/" ++ query], ds)

/-- Network and decode oracle for artwork: `http u` is the response content
of `requests.get(u)` (`none` when the request or `raise_for_status`
raised); `decode c` is the result of `Image.open`, `convert`, `resize` and
`PhotoImage` on content `c` (`none` when any of them raised). -/
structure ArtNet where
  http : String → Option Nat
  decode : Nat → Option Nat

/-- Combined outcome of fetching and decoding one artwork URL. -/
def artworkFetch (net : ArtNet) (u : String) : Option Nat :=
  match net.http u with
  | none => none
  | some c => net.decode c

/-- `item.get("artworkUrl100") or item.get("artworkUrl60")` (lines 209, 244). -/
def artworkOf (r : SongRecord) : Option String :=
  pyOr r.artworkUrl100 r.artworkUrl60

/-- `_apply_artwork_if_selected` (lines 236-246), run on the UI thread:
shows the cached image only when the current selection is in range and its
artwork URL equals `url` and `url` is cached. -/
def apply_artwork_if_selected (s : AppState) (url : String) : AppState :=
  match s.selection with
  | none => s
  | some idx =>
      match s.current_results[idx]? with
      | none => s
      | some item =>
          match cacheLookup s.artwork_cache url with
          | none => s
          | some photo =>
              if artworkOf item = some url then
                { s with artwork_label := ArtworkDisplay.image photo }
              else s

/-- `load_artwork` (lines 223-234) together with the `after` callback it
schedules, sequentialized: one HTTP request is attempted (recorded in the
second component), on success the decoded photo is stored in the cache and
`apply_artwork_if_selected` runs; every failure is silently swallowed by
the bare `except: pass`, so no dialog is ever shown (third component). -/
def load_artwork (net : ArtNet) (s : AppState) (url : String) :
    AppState × List String × List Dialog :=
  match net.http url with
  | none => (s, [url], [])
  | some content =>
      match net.decode content with
      | none => (s, [url], [])
      | some photo =>
          let s1 := { s with artwork_cache := (url, photo) :: s.artwork_cache }
          (apply_artwork_if_selected s1 url, [url], [])

/-- The artwork branch of `on_selection_changed` (lines 211-215): use the
cache when the URL is present, otherwise spawn `load_artwork`. -/
def selectionArtworkStep (net : ArtNet) (s : AppState) (url : String) :
    AppState × List String :=
  match cacheLookup s.artwork_cache url with
  | some photo => ({ s with artwork_label := ArtworkDisplay.image photo }, [])
  | none =>
      let r := load_artwork net s url
      (r.1, r.2.1)

/-- `on_selection_changed` (lines 194-221), with the listbox selection it
reads passed in as `sel` and recorded in the state; `pil` is
`PIL_AVAILABLE`. The second component lists the artwork HTTP requests the
event issued. -/
def on_selection_changed (net : ArtNet) (pil : Bool) (s0 : AppState) (sel : Option Nat) :
    AppState × List String :=
  let s := { s0 with selection := sel }
  match sel with
  | none =>
      ({ s with track_var := "", artist_var := "", artwork_label := ArtworkDisplay.empty }, [])
  | some idx =>
      match s.current_results[idx]? with
      | none => (s, [])
      | some item =>
          let s1 := { s with track_var := item.trackName.getD ""
                             artist_var := item.artistName.getD "" }
          let artwork := artworkOf item
          if pyTruthy artwork && pil then
            selectionArtworkStep net s1 (artwork.getD "")
          else if !pil && pyTruthy artwork then
            ({ s1 with artwork_label := ArtworkDisplay.text "[Install Pillow to show artwork]" }, [])
          else
            ({ s1 with artwork_label := ArtworkDisplay.empty }, [])

/-- A sequence of listbox-selection events, accumulating the artwork HTTP
requests of the whole run. -/
def runSelects (net : ArtNet) (pil : Bool) : AppState → List (Option Nat) → AppState × List String
  | s, [] => (s, [])
  | s, sel :: rest =>
      let r1 := on_selection_changed net pil s sel
      let r2 := runSelects net pil r1.1 rest
      (r2.1, r1.2 ++ r2.2)

/-- Thread on which a statement of the source executes: the Tk mainloop
thread, or a `threading.Thread` worker. -/
inductive ThreadCtx where
  | uiThread
  | bgThread
deriving Repr, DecidableEq

/-- A write to one of the two shared mutable structures named by the spec. -/
inductive SharedWrite where
  | writeResults
  | writeCache
deriving Repr, DecidableEq

/-- Writes performed by `update_results` with the thread they run on: it is
only ever invoked through `self.after(0, ...)` (line 168), hence on the UI
thread; it assigns `current_results` (line 177) and clears
`artwork_cache` (line 180). -/
def update_results_writes : List (ThreadCtx × SharedWrite) :=
  [(ThreadCtx.uiThread, SharedWrite.writeResults),
   (ThreadCtx.uiThread, SharedWrite.writeCache)]

/-- `fetch_failed` (lines 170-173) writes neither shared structure. -/
def fetch_failed_writes : List (ThreadCtx × SharedWrite) := []

/-- Writes of one complete search task: the body of `fetch_itunes` runs on
a background thread (spawned at line 155) and itself writes neither
structure; it marshals either `update_results` or `fetch_failed` onto the
UI thread via `self.after` (lines 165, 168). -/
def fetch_itunes_writes (ok : Bool) : List (ThreadCtx × SharedWrite) :=
  if ok then update_results_writes else fetch_failed_writes

/-- Writes of one artwork task: the body of `load_artwork` runs on a
background thread (spawned at line 215) and, on success, assigns
`self.artwork_cache[url] = photo` directly at line 231, BEFORE marshaling
`_apply_artwork_if_selected` (which writes neither structure) onto the UI
thread at line 232; on failure it writes nothing. -/
def load_artwork_writes (fetchOk : Bool) : List (ThreadCtx × SharedWrite) :=
  if fetchOk then [(ThreadCtx.bgThread, SharedWrite.writeCache)] else []

/-- Oracle where the artwork HTTP GET succeeds but the image decode raises. -/
def artNetDecodeFail : ArtNet :=
  { http := fun _ => some 0, decode := fun _ => none }

/-- Oracle where every artwork fetch and decode succeeds. -/
def artNetOk : ArtNet :=
  { http := fun _ => some 5, decode := fun c => some (c + 1) }

/-- A record with an artwork URL, as a fetched search result. -/
def trackWithArt : SongRecord :=
  { trackName := some "A", artworkUrl100 := some "u" }

/-- State after a successful search returning one record with artwork. -/
def stateWithArt : AppState :=
  update_results initialState [trackWithArt] "happy song" "US"

/-- A record with a preview URL. -/
def trackWithPreview : SongRecord :=
  { trackName := some "B", previewUrl := some "https://p.example/b.m4a" }

/-- A record with no preview URL. -/
def trackNoPreview : SongRecord :=
  { trackName := some "C" }

/-- State with both records loaded and the first one selected. -/
def stateSelPreview : AppState :=
  { (update_results initialState [trackWithPreview, trackNoPreview] "t" "US") with
      selection := some 0 }

/-- State with both records loaded and the second one selected. -/
def stateSelNoPreview : AppState :=
  { (update_results initialState [trackWithPreview, trackNoPreview] "t" "US") with
      selection := some 1 }

/-- State with one record loaded but an out-of-range selection index. -/
def stateSelOutOfRange : AppState :=
  { (update_results initialState [trackWithPreview] "t" "US") with selection := some 3 }

/-- C4: `itunes_search_url t l c` is exactly the base URL followed by the
`quote_plus` encoding of the term, the fixed entity segment, the limit and
the country, and the background search requests it with limit 50. -/
theorem itunes_search_url_spec (t c : String) (l : Nat) :
    itunes_search_url t l c =
      "https://itunes.apple.com/search?term=" ++ quotePlus t ++
        "&entity=song&limit=" ++ toString l ++ "&country=" ++ c ∧
    fetch_itunes_request_url t c = itunes_search_url t 50 c :=
  ⟨rfl, rfl⟩

/-- C1: after `update_results` on a results array of N records, the listbox
holds exactly N lines, the i-th derived from the i-th record by
`displayLine` (the map keeps length and order), and `current_results` is
that exact array. -/
theorem update_results_display (s : AppState) (results : List SongRecord)
    (term country : String) :
    (update_results s results term country).song_listbox = results.map displayLine ∧
    (update_results s results term country).song_listbox.length = results.length ∧
    (update_results s results term country).current_results = results := by
  unfold update_results
  by_cases h : results.isEmpty
  · simp_all [List.isEmpty_iff]
  · simp [h]

/-- C7: a completed search discards the previous query state:
`update_results` empties the artwork cache, replaces `current_results` with
the new results and rebuilds the listbox from them alone. -/
theorem update_results_resets (s : AppState) (results : List SongRecord)
    (term country : String) :
    (update_results s results term country).artwork_cache = [] ∧
    (update_results s results term country).current_results = results ∧
    (update_results s results term country).song_listbox = results.map displayLine := by
  unfold update_results
  by_cases h : results.isEmpty
  · simp_all [List.isEmpty_iff]
  · simp [h]

/-- C5: search initiation. With a non-empty trimmed custom entry the term is
the custom text plus the region suffix (trimmed); otherwise with a
non-empty mood the term is the lowercased mood, " song ", and the suffix
(trimmed); otherwise one info dialog is shown and no search starts. The
country sent is the selected region entry of `REGION_MAP`, defaulting to
"US" for a region not in the table. -/
theorem on_get_songs_spec (s : AppState) (custom mood region : String) :
    (pyStrip custom ≠ "" →
      (on_get_songs s custom mood region).2.2 =
        some (pyStrip (pyStrip custom ++ " " ++ (regionLookup (regionSelOf region)).append),
              (regionLookup (regionSelOf region)).country) ∧
      (on_get_songs s custom mood region).2.1 = []) ∧
    (pyStrip custom = "" → pyLower (pyStrip mood) ≠ "" →
      (on_get_songs s custom mood region).2.2 =
        some (pyStrip (pyLower (pyStrip mood) ++ " song " ++ (regionLookup (regionSelOf region)).append),
              (regionLookup (regionSelOf region)).country) ∧
      (on_get_songs s custom mood region).2.1 = []) ∧
    (pyStrip custom = "" → pyLower (pyStrip mood) = "" →
      (on_get_songs s custom mood region).2.2 = none ∧
      (on_get_songs s custom mood region).2.1 =
        [Dialog.info "No input" "Please select a mood or enter a custom search term."] ∧
      (on_get_songs s custom mood region).1 = s) ∧
    (regionFind REGION_MAP (regionSelOf region) = none →
      (regionLookup (regionSelOf region)).country = "US") := by
  refine ⟨fun hc => ?_, fun hc hm => ?_, fun hc hm => ?_, fun hn => ?_⟩
  · simp [on_get_songs, computeSearch, hc]
  · simp [on_get_songs, computeSearch, hc, hm]
  · simp [on_get_songs, computeSearch, hc, hm]
  · simp [regionLookup, hn]

/-- Witness for C5 at concrete inputs: a custom term with the Bollywood
region searches for "lofi Bollywood" in country "IN". -/
theorem on_get_songs_spec_witness :
    (on_get_songs initialState "  lofi " "" "Bollywood").2.2 = some ("lofi Bollywood", "IN") ∧
    (on_get_songs initialState "  lofi " "" "Bollywood").2.1 = [] := by
  have h := (on_get_songs_spec initialState "  lofi " "" "Bollywood").1 (by decide)
  simpa using h

/-- The bounds check of `get_selected_item` succeeds exactly on the record
the selection indexes. -/
theorem get_selected_item_valid (s : AppState) (idx : Nat) (r : SongRecord)
    (hsel : s.selection = some idx) (hr : s.current_results[idx]? = some r) :
    get_selected_item s = (some r, []) := by
  have hlt : idx < s.current_results.length := by
    by_contra hle
    push_neg at hle
    rw [List.getElem?_eq_none hle] at hr
    exact Option.noConfusion hr
  simp [get_selected_item, hsel, Nat.not_le.mpr hlt, hr]

/-- C6: with a record selected, a falsy (absent or empty) `previewUrl`
makes `play_preview` show one "No preview available" info dialog, open no
tab and leave the state unchanged; a non-empty `previewUrl` opens exactly
that URL in a new tab with no dialog. -/
theorem play_preview_spec (s : AppState) (idx : Nat) (r : SongRecord)
    (hsel : s.selection = some idx) (hr : s.current_results[idx]? = some r) :
    (¬ pyTruthy r.previewUrl →
      play_preview s =
        (s, [], [Dialog.info "No preview available" "No preview audio is available for this track."])) ∧
    (∀ u, r.previewUrl = some u → u ≠ "" →
      (play_preview s).2.1 = [u] ∧ (play_preview s).2.2 = []) := by
  have hg := get_selected_item_valid s idx r hsel hr
  constructor
  · intro hp
    simp [play_preview, hg, hp]
  · intro u hu hne
    simp [play_preview, hg, hu, pyTruthy, hne]

/-- Witness for C6: in a concrete state with the preview-less record
selected, `play_preview` shows the dialog and opens nothing; with the
record carrying a preview URL selected, it opens exactly that URL. -/
theorem play_preview_spec_witness :
    play_preview stateSelNoPreview =
      (stateSelNoPreview, [],
       [Dialog.info "No preview available" "No preview audio is available for this track."]) ∧
    (play_preview stateSelPreview).2.1 = ["https://p.example/b.m4a"] ∧
    (play_preview stateSelPreview).2.2 = [] := by
  refine ⟨(play_preview_spec stateSelNoPreview 1 trackNoPreview (by decide) (by decide)).1 (by decide), ?_⟩
  exact (play_preview_spec stateSelPreview 0 trackWithPreview (by decide) (by decide)).2
    "https://p.example/b.m4a" rfl (by decide)

/-- C9: with no selection, or a selection index at or past the end of
`current_results`, `get_selected_item` returns `None` after one info
dialog, and each of the three actions opens no tab, changes nothing, and
surfaces only that dialog. -/
theorem invalid_selection_safe (s : AppState)
    (h : s.selection = none ∨ ∃ i, s.selection = some i ∧ s.current_results.length ≤ i) :
    (get_selected_item s).1 = none ∧
    (∃ m, (get_selected_item s).2 = [Dialog.info "No selection" m]) ∧
    play_preview s = (s, [], (get_selected_item s).2) ∧
    open_itunes s = (s, [], (get_selected_item s).2) ∧
    open_youtube_spotify s = (s, [], (get_selected_item s).2) := by
  have hg : ∃ m, get_selected_item s = (none, [Dialog.info "No selection" m]) := by
    rcases h with hnone | ⟨i, hi, hlen⟩
    · exact ⟨"Please select a song from the list.", by simp [get_selected_item, hnone]⟩
    · exact ⟨"Please select a valid song from the list.", by simp [get_selected_item, hi, hlen]⟩
  obtain ⟨m, hg⟩ := hg
  refine ⟨by simp [hg], ⟨m, by simp [hg]⟩, ?_, ?_, ?_⟩ <;>
    simp [play_preview, open_itunes, open_youtube_spotify, hg]

/-- Witness for C9 at two concrete states: the fresh state with nothing
selected, and a loaded state whose selection index is out of range. -/
theorem invalid_selection_safe_witness :
    (get_selected_item initialState).1 = none ∧
    play_preview initialState = (initialState, [], (get_selected_item initialState).2) ∧
    (get_selected_item stateSelOutOfRange).1 = none ∧
    open_itunes stateSelOutOfRange = (stateSelOutOfRange, [], (get_selected_item stateSelOutOfRange).2) := by
  have h1 := invalid_selection_safe initialState (Or.inl rfl)
  have h2 := invalid_selection_safe stateSelOutOfRange (Or.inr ⟨3, rfl, by decide⟩)
  exact ⟨h1.1, h1.2.2.1, h2.1, h2.2.2.2.1⟩

/-- C10: when the background fetch of a started search fails, the final
state keeps the previous results, listbox, cache, selection, artwork label
and detail labels unchanged; only the status text and button state change,
and exactly one modal error dialog is shown. -/
theorem failingSearch_preserves (s : AppState) (custom mood region exMsg : String)
    (sFinal : AppState) (ds : List Dialog)
    (h : failingSearch s custom mood region exMsg = some (sFinal, ds)) :
    sFinal.current_results = s.current_results ∧
    sFinal.song_listbox = s.song_listbox ∧
    sFinal.artwork_cache = s.artwork_cache ∧
    sFinal.selection = s.selection ∧
    sFinal.artwork_label = s.artwork_label ∧
    sFinal.track_var = s.track_var ∧
    sFinal.artist_var = s.artist_var ∧
    sFinal.btn_get_enabled = true ∧
    sFinal.status_var = "Search failed." ∧
    ds = [Dialog.error "Search failed" ("Could not fetch results from iTunes: " ++ exMsg)] := by
  unfold failingSearch on_get_songs fetch_failed at h
  rcases hcs : computeSearch custom mood region with _ | ⟨term, country⟩ <;> rw [hcs] at h
  · exact Option.noConfusion h
  · simp only [Option.some.injEq, Prod.mk.injEq] at h
    obtain ⟨h1, h2⟩ := h
    subst h1
    subst h2
    simp

/-- Witness for C10: a concrete failing search from the fresh state leaves
every result-bearing field as it was. -/
theorem failingSearch_preserves_witness :
    ({ initialState with status_var := "Search failed." } : AppState).current_results =
      initialState.current_results ∧
    ({ initialState with status_var := "Search failed." } : AppState).artwork_cache =
      initialState.artwork_cache := by
  have h := failingSearch_preserves initialState "lofi" "" "Bollywood" "boom"
    { initialState with status_var := "Search failed." }
    [Dialog.error "Search failed" "Could not fetch results from iTunes: boom"]
    (by decide)
  exact ⟨h.1, h.2.2.1⟩

/-- C8: a failed artwork fetch or decode is silent: the state (cache and
artwork label included) is returned unchanged, exactly one HTTP request was
attempted (no retry), and no dialog is shown; a failed search fetch
surfaces exactly one modal error dialog and touches neither the results
nor the cache nor the labels. -/
theorem failure_handling_spec (net : ArtNet) (s : AppState) (url exMsg : String)
    (hfail : artworkFetch net url = none) :
    load_artwork net s url = (s, [url], []) ∧
    (fetch_failed s exMsg).2 =
      [Dialog.error "Search failed" ("Could not fetch results from iTunes: " ++ exMsg)] ∧
    (fetch_failed s exMsg).1.current_results = s.current_results ∧
    (fetch_failed s exMsg).1.artwork_cache = s.artwork_cache ∧
    (fetch_failed s exMsg).1.artwork_label = s.artwork_label ∧
    (fetch_failed s exMsg).1.song_listbox = s.song_listbox := by
  unfold artworkFetch at hfail
  refine ⟨?_, by simp [fetch_failed], by simp [fetch_failed], by simp [fetch_failed],
    by simp [fetch_failed], by simp [fetch_failed]⟩
  rcases hh : net.http url with _ | c <;> rw [hh] at hfail <;> simp at hfail <;>
    simp [load_artwork, hh, hfail]

/-- Witness for C8: with the decode-failing oracle, fetching artwork "u"
from the loaded state changes nothing, attempts one request, and shows no
dialog. -/
theorem failure_handling_spec_witness :
    load_artwork artNetDecodeFail stateWithArt "u" = (stateWithArt, ["u"], []) :=
  (failure_handling_spec artNetDecodeFail stateWithArt "u" "m" (by decide)).1

/-- C3 counterexample: the successful artwork task writes `artwork_cache`
directly from the background thread (line 231 executes in the
`threading.Thread` body, before the `self.after` marshal of line 232), so
the shared cache is not only written from the UI thread. -/
theorem bg_thread_writes_cache :
    (ThreadCtx.bgThread, SharedWrite.writeCache) ∈ load_artwork_writes true ∧
    ThreadCtx.bgThread ≠ ThreadCtx.uiThread := by decide

/-- C3 amended: `current_results` is indeed only ever written on the UI
thread after marshaling (every search-task write runs there, and the
artwork task never writes it), but the artwork cache is written directly by
the background artwork thread on a successful fetch. -/
theorem shared_write_thread_discipline :
    (∀ ok : Bool, ∀ w, w ∈ fetch_itunes_writes ok → w.1 = ThreadCtx.uiThread) ∧
    (∀ fetchOk : Bool, ∀ w, w ∈ load_artwork_writes fetchOk →
      w.1 = ThreadCtx.bgThread ∧ w.2 = SharedWrite.writeCache) ∧
    (ThreadCtx.bgThread, SharedWrite.writeCache) ∈ load_artwork_writes true := by
  refine ⟨?_, ?_, by decide⟩
  · intro ok w hw
    cases ok <;>
      simp [fetch_itunes_writes, update_results_writes, fetch_failed_writes] at hw
    rcases hw with hw | hw <;> simp [hw]
  · intro fetchOk w hw
    cases fetchOk <;> simp [load_artwork_writes] at hw
    simp [hw]

/-- Witness for C3 (amended): the write of `current_results` performed by a
successful search task runs on the UI thread. -/
theorem shared_write_thread_discipline_witness :
    (ThreadCtx.uiThread, SharedWrite.writeResults).1 = ThreadCtx.uiThread :=
  shared_write_thread_discipline.1 true (ThreadCtx.uiThread, SharedWrite.writeResults)
    (by decide)

/-- `_apply_artwork_if_selected` configures the label only; it never
touches the cache. -/
theorem apply_artwork_cache_eq (s : AppState) (url : String) :
    (apply_artwork_if_selected s url).artwork_cache = s.artwork_cache := by
  unfold apply_artwork_if_selected
  split
  · rfl
  split
  · rfl
  split
  · rfl
  split <;> rfl

/-- Every `load_artwork` call attempts exactly one HTTP request. -/
theorem load_artwork_log (net : ArtNet) (s : AppState) (url : String) :
    (load_artwork net s url).2.1 = [url] := by
  unfold load_artwork
  split
  · rfl
  split <;> rfl

/-- Adding a cache entry can only keep existing URLs present. -/
theorem cacheLookup_cons_ne_none (c : List (String × Nat)) (k u : String) (v : Nat)
    (h : cacheLookup c u ≠ none) : cacheLookup ((k, v) :: c) u ≠ none := by
  unfold cacheLookup
  by_cases hk : k = u <;> simp [hk, h]

/-- `load_artwork` never evicts: URLs in the cache stay in the cache. -/
theorem load_artwork_cache_mono (net : ArtNet) (s : AppState) (url v : String)
    (h : cacheLookup s.artwork_cache v ≠ none) :
    cacheLookup (load_artwork net s url).1.artwork_cache v ≠ none := by
  unfold load_artwork
  split
  · exact h
  split
  · exact h
  rw [apply_artwork_cache_eq]
  exact cacheLookup_cons_ne_none _ _ _ _ h

/-- When the fetch and decode of `url` succeed, `load_artwork` caches it. -/
theorem load_artwork_success_cached (net : ArtNet) (s : AppState) (url : String) (p : Nat)
    (h : artworkFetch net url = some p) :
    cacheLookup (load_artwork net s url).1.artwork_cache url ≠ none := by
  unfold artworkFetch at h
  rcases hh : net.http url with _ | c <;> rw [hh] at h
  · exact Option.noConfusion h
  · simp only at h
    unfold load_artwork
    simp only [hh, h]
    rw [apply_artwork_cache_eq]
    simp [cacheLookup]

/-- One artwork branch step fetches a cacheable URL `u` at most once, never
fetches it when it is cached, and caches it whenever it fetches it. -/
theorem selectionArtworkStep_invariant (net : ArtNet) (s : AppState) (url u : String) (p : Nat)
    (hnet : artworkFetch net u = some p) :
    ((selectionArtworkStep net s url).2.count u ≤ 1) ∧
    (cacheLookup s.artwork_cache u ≠ none →
      (selectionArtworkStep net s url).2.count u = 0 ∧
      cacheLookup (selectionArtworkStep net s url).1.artwork_cache u ≠ none) ∧
    ((selectionArtworkStep net s url).2.count u = 1 →
      cacheLookup (selectionArtworkStep net s url).1.artwork_cache u ≠ none) := by
  unfold selectionArtworkStep
  rcases hc : cacheLookup s.artwork_cache url with _ | photo
  · simp only [hc, load_artwork_log]
    by_cases hu : url = u
    · subst hu
      refine ⟨by simp, fun hcached => absurd hc (by simp [hcached]), ?_⟩
      · intro _
        exact load_artwork_success_cached net s url p hnet
    · have hcount : List.count u [url] = 0 := by
        simp [List.count_singleton, hu]
      refine ⟨by omega, fun hcached => ⟨hcount, load_artwork_cache_mono net s url u hcached⟩,
        fun h1 => absurd (hcount.symm.trans h1) (by omega)⟩
  · simp only [hc]
    exact ⟨by simp, fun hcached => ⟨by simp, hcached⟩, fun h1 => by simp at h1⟩

/-- One selection event fetches a cacheable URL `u` at most once, never
fetches it when it is cached, and caches it whenever it fetches it. -/
theorem selection_step_fetch_invariant (net : ArtNet) (pil : Bool) (s : AppState)
    (sel : Option Nat) (u : String) (p : Nat) (hnet : artworkFetch net u = some p) :
    ((on_selection_changed net pil s sel).2.count u ≤ 1) ∧
    (cacheLookup s.artwork_cache u ≠ none →
      (on_selection_changed net pil s sel).2.count u = 0 ∧
      cacheLookup (on_selection_changed net pil s sel).1.artwork_cache u ≠ none) ∧
    ((on_selection_changed net pil s sel).2.count u = 1 →
      cacheLookup (on_selection_changed net pil s sel).1.artwork_cache u ≠ none) := by
  unfold on_selection_changed
  rcases sel with _ | idx
  · exact ⟨by simp, fun hcached => ⟨by simp, hcached⟩, fun h1 => by simp at h1⟩
  · simp only
    rcases hi : ({ s with selection := some idx } : AppState).current_results[idx]? with _ | item
    · simp only [hi]
      exact ⟨by simp, fun hcached => ⟨by simp, hcached⟩, fun h1 => by simp at h1⟩
    · simp only [hi]
      by_cases hb : (pyTruthy (artworkOf item) && pil) = true
      · simp only [hb, if_pos]
        exact selectionArtworkStep_invariant net _ _ u p hnet
      · simp only [hb, if_neg]
        by_cases hb2 : (!pil && pyTruthy (artworkOf item)) = true <;>
          simp only [hb2, if_pos, if_neg] <;>
          exact ⟨by simp, fun hcached => ⟨by simp, hcached⟩, fun h1 => by simp at h1⟩

/-- Across any run of selection events, a cacheable URL `u` is requested at
most once, and never when it starts out cached. -/
theorem runSelects_fetch_invariant (net : ArtNet) (pil : Bool) (u : String) (p : Nat)
    (hnet : artworkFetch net u = some p) :
    ∀ (sels : List (Option Nat)) (s : AppState),
      ((runSelects net pil s sels).2.count u ≤ 1) ∧
      (cacheLookup s.artwork_cache u ≠ none → (runSelects net pil s sels).2.count u = 0) := by
  intro sels
  induction sels with
  | nil => intro s; simp [runSelects]
  | cons sel rest ih =>
    intro s
    have hstep := selection_step_fetch_invariant net pil s sel u p hnet
    have hrest := ih (on_selection_changed net pil s sel).1
    unfold runSelects
    simp only [List.count_append]
    refine ⟨?_, ?_⟩
    · rcases Nat.le_one_iff_eq_zero_or_eq_one.mp hstep.1 with h1 | h1
      · have h2 := hrest.1
        omega
      · have h2 := hrest.2 (hstep.2.2 h1)
        omega
    · intro hcached
      have h0 := (hstep.2.1 hcached).1
      have h2 := hrest.2 (hstep.2.1 hcached).2
      omega

/-- C2 counterexample: in one session (fresh start, one successful search,
two selections of the same track) the same artwork URL "u" is fetched over
HTTP twice, because the decode failure leaves the cache empty and the
`except: pass` of `load_artwork` discards the outcome, so the second
selection misses the cache and refetches. -/
theorem artwork_refetched_after_decode_failure :
    (runSelects artNetDecodeFail true stateWithArt [some 0, some 0]).2 = ["u", "u"] ∧
    1 < ((runSelects artNetDecodeFail true stateWithArt [some 0, some 0]).2).count "u" := by
  decide

/-- C2 amended: an artwork URL whose fetch and decode succeed is requested
at most once across any sequence of selection events in a session (once
fetched it is cached, and the cache is consulted before every fetch);
uncacheable URLs, and searches that clear the cache, may cause refetches. -/
theorem artwork_fetched_once_when_decodable (net : ArtNet) (pil : Bool) (s : AppState)
    (sels : List (Option Nat)) (u : String) (p : Nat)
    (hnet : artworkFetch net u = some p) :
    ((runSelects net pil s sels).2).count u ≤ 1 :=
  (runSelects_fetch_invariant net pil u p hnet sels s).1

/-- Witness for the amended C2: with an oracle on which "u" decodes
successfully, two selections of the same track fetch "u" at most once. -/
theorem artwork_fetched_once_witness :
    ((runSelects artNetOk true stateWithArt [some 0, some 0]).2).count "u" ≤ 1 :=
  artwork_fetched_once_when_decodable artNetOk true stateWithArt [some 0, some 0] "u" 6
    (by decide)
